import Mathlib

/-!
# Verification of the core mechanics of a Snake game

Shallow embedding of the game's core logic: the `Snake` movement/growth
model (`src/snake.py`), the `Food` spawn/expiration model (`src/food.py`),
the speed controller and the session state machine (`src/game.py`), with
the constants of `src/config.py`.

Randomness (`random.random()` / `random.randint`) is modelled by passing
the outcomes of the draws explicitly: a `Bool` for the cookie-chance draw
and a function `Nat → Pos` giving the position drawn at each attempt.
Python operations that can raise (indexing `body[0]` on an empty list)
are modelled with `Option`.
-/

namespace SnakeGameModel

/-- A grid position, `(x, y)` with integer coordinates. -/
abbrev Pos := Int × Int

/-! ## Constants from `src/config.py` -/

def INITIAL_SNAKE_LENGTH : Nat := 3

def INITIAL_SNAKE_POSITION : Pos := (20, 11)

def INITIAL_FPS : Nat := 4

def MAX_FPS : Nat := 15

def SPEED_INCREASE_INTERVAL : Nat := 30

def SPEED_INCREASE_AMOUNT : Nat := 1

def NORMAL_FOOD_VALUE : Nat := 10

def COOKIE_FOOD_VALUE : Nat := 20

def COOKIE_LIFETIME : Nat := 4

def UP : Pos := (0, -1)

def DOWN : Pos := (0, 1)

def LEFT : Pos := (-1, 0)

def RIGHT : Pos := (1, 0)

/-! ## Playable-area bounds

`SnakeGame.__init__` (src/game.py) fixes `playable_start_x = 5`,
`playable_start_y = 4`, `playable_width = 30`, `playable_height = 15`
and passes them to both the `Snake` and the `Food` constructor. -/

def playable_start_x : Int := 5

def playable_start_y : Int := 4

def playable_width : Int := 30

def playable_height : Int := 15

/-- `Snake._is_valid_position` / `Food._is_valid_position`: a position is
valid iff it lies inside the playable area (excluding walls). -/
def is_valid_position (p : Pos) : Bool :=
  playable_start_x ≤ p.1 && p.1 < playable_start_x + playable_width &&
  playable_start_y ≤ p.2 && p.2 < playable_start_y + playable_height

/-! ## Snake (`src/snake.py`) -/

/-- The mutable state of the `Snake` class (rendering fields omitted). -/
structure Snake where
  body : List Pos
  direction : Pos
  next_direction : Pos
  grow_pending : Bool
deriving DecidableEq, Repr

/-- `Snake._initialize_body`: segments `(start_x - i, start_y)` for
`i = 0, ..., INITIAL_SNAKE_LENGTH - 1`. -/
def initial_body : List Pos :=
  (List.range INITIAL_SNAKE_LENGTH).map
    (fun i => (INITIAL_SNAKE_POSITION.1 - i, INITIAL_SNAKE_POSITION.2))

/-- The snake as built by `Snake.__init__` (and by `Snake.reset`). -/
def Snake.init : Snake :=
  { body := initial_body
    direction := RIGHT
    next_direction := RIGHT
    grow_pending := false }

/-- `Snake.reset`: clear the body, restore direction defaults,
re-initialize the body. -/
def Snake.reset (_s : Snake) : Snake := Snake.init

/-- `Snake.update_direction`: record the requested direction as
`next_direction`, unless the body has length `> 1` and the request is the
exact opposite of the currently-applied `direction`. -/
def Snake.update_direction (s : Snake) (new_direction : Pos) : Snake :=
  if 1 < s.body.length ∧ new_direction = (-s.direction.1, -s.direction.2) then
    s
  else
    { s with next_direction := new_direction }

/-- `Snake.grow`: mark the snake to grow on the next move. -/
def Snake.grow (s : Snake) : Snake := { s with grow_pending := true }

/-- `Snake.move`: commit `next_direction` to `direction`, compute the new
head, fail on wall or self collision, otherwise prepend the new head and
drop the tail unless a growth was pending.  `body[0]` on an empty body
raises in Python, hence the `Option`. -/
def Snake.move (s : Snake) : Option (Bool × Snake) :=
  match s.body with
  | [] => none
  | (head_x, head_y) :: _ =>
    let new_head : Pos :=
      (head_x + s.next_direction.1, head_y + s.next_direction.2)
    if ¬ is_valid_position new_head then
      some (false, { s with direction := s.next_direction })
    else if new_head ∈ s.body then
      some (false, { s with direction := s.next_direction })
    else if ¬ s.grow_pending then
      some (true, { s with direction := s.next_direction,
                           body := (new_head :: s.body).dropLast })
    else
      some (true, { s with direction := s.next_direction,
                           body := new_head :: s.body,
                           grow_pending := false })

/-- `Snake.get_head_position`, modelled with `Option` for the empty-body
indexing error. -/
def Snake.get_head_position (s : Snake) : Option Pos := s.body.head?

/-! ## Food (`src/food.py`) -/

/-- `Food.food_type` is the string `"normal"` or `"cookie"`. -/
inductive FoodType where
  | normal
  | cookie
deriving DecidableEq, Repr

/-- The mutable state of the `Food` class (rendering fields omitted).
`lifetime` is the frame countdown; it is only ever decremented while
positive, so `Nat` is exact. -/
structure Food where
  position : Option Pos
  food_type : FoodType
  value : Nat
  lifetime : Nat
  is_expired : Bool
deriving DecidableEq, Repr

/-- The food as built by `Food.__init__`. -/
def Food.init : Food :=
  { position := none
    food_type := .normal
    value := NORMAL_FOOD_VALUE
    lifetime := 0
    is_expired := false }

/-- `Food.reset`: remove the food from the game and restore defaults. -/
def Food.reset (_f : Food) : Food := Food.init

/-- Attempt cap of the placement loop in `Food.generate`. -/
def MAX_ATTEMPTS : Nat := 1000

/-- The `while attempts < max_attempts` search of `Food.generate`:
`draws attempt` is the pair returned by `Food._get_random_position` on
that attempt (two `random.randint` calls).  The candidate is accepted
when it is a valid position and not in `exclude`. -/
def find_position (exclude : List Pos) (draws : Nat → Pos) :
    Nat → Nat → Option Pos
  | _, 0 => none
  | attempt, remaining + 1 =>
    let new_position := draws attempt
    if is_valid_position new_position ∧ new_position ∉ exclude then
      some new_position
    else
      find_position exclude draws (attempt + 1) remaining

/-- `Food.generate`: pick the food type from the cookie-chance draw
(`cookie_draw` is the outcome of `random.random() < COOKIE_SPAWN_CHANCE`),
then search for a position for up to `MAX_ATTEMPTS` attempts, falling
back to `(5, 5)` on exhaustion.  Returns the updated food and the
returned position.  Note the cookie branch does not touch `is_expired`. -/
def Food.generate (f : Food) (exclude : List Pos) (current_fps : Nat)
    (cookie_draw : Bool) (draws : Nat → Pos) : Food × Pos :=
  let f' :=
    if cookie_draw then
      { f with food_type := .cookie
               value := COOKIE_FOOD_VALUE
               lifetime := COOKIE_LIFETIME * current_fps }
    else
      { f with food_type := .normal
               value := NORMAL_FOOD_VALUE
               lifetime := 0
               is_expired := false }
  match find_position exclude draws 0 MAX_ATTEMPTS with
  | some p => ({ f' with position := some p }, p)
  | none => ({ f' with position := some (5, 5) }, (5, 5))

/-- `Food.update`: for a cookie with positive lifetime, decrement the
lifetime; when it reaches zero, mark expired and clear the position. -/
def Food.update (f : Food) : Food :=
  if f.food_type = .cookie ∧ 0 < f.lifetime then
    if f.lifetime - 1 ≤ 0 then
      { f with lifetime := f.lifetime - 1
               is_expired := true
               position := none }
    else
      { f with lifetime := f.lifetime - 1 }
  else
    f

/-- `Food.is_eaten`: true iff the position is set and equals the head. -/
def Food.is_eaten (f : Food) (snake_head_position : Pos) : Bool :=
  match f.position with
  | none => false
  | some p => snake_head_position = p

/-! ## Game session (`src/game.py`) -/

/-- The `GameState` string enumeration. -/
inductive GameState where
  | menu
  | playing
  | paused
  | game_over
deriving DecidableEq, Repr

/-- The session-relevant mutable state of the `SnakeGame` class
(rendering, audio and clock fields omitted). -/
structure SnakeGame where
  state : GameState
  score : Nat
  high_score : Nat
  current_fps : Nat
  snake : Snake
  food : Food
deriving DecidableEq, Repr

/-- `SnakeGame._update_speed` as the pure function of the score it
computes: `min(INITIAL_FPS + (score // interval) * amount, MAX_FPS)`. -/
def update_speed (score : Nat) : Nat :=
  min (INITIAL_FPS + score / SPEED_INCREASE_INTERVAL * SPEED_INCREASE_AMOUNT)
    MAX_FPS

/-- `SnakeGame._generate_food`: regenerate the food, excluding the snake
body, at the current fps. -/
def SnakeGame.generate_food (g : SnakeGame) (cookie_draw : Bool)
    (draws : Nat → Pos) : SnakeGame :=
  { g with
    food := (g.food.generate g.snake.body g.current_fps cookie_draw draws).1 }

/-- `SnakeGame._start_game`: enter Playing, reset score/fps/snake, spawn
food (music call omitted). -/
def SnakeGame.start_game (g : SnakeGame) (cookie_draw : Bool)
    (draws : Nat → Pos) : SnakeGame :=
  SnakeGame.generate_food
    { g with state := .playing
             score := 0
             current_fps := INITIAL_FPS
             snake := g.snake.reset }
    cookie_draw draws

/-- `SnakeGame._restart_game`: simply calls `_start_game`. -/
def SnakeGame.restart_game (g : SnakeGame) (cookie_draw : Bool)
    (draws : Nat → Pos) : SnakeGame :=
  g.start_game cookie_draw draws

/-- `SnakeGame._return_to_menu`: enter Menu, reset snake, score and fps
(music call omitted; the food is not touched). -/
def SnakeGame.return_to_menu (g : SnakeGame) : SnakeGame :=
  { g with state := .menu
           snake := g.snake.reset
           score := 0
           current_fps := INITIAL_FPS }

/-- `SnakeGame._game_over`: enter GameOver and update the high score. -/
def SnakeGame.game_over (g : SnakeGame) : SnakeGame :=
  { g with state := .game_over
           high_score := if g.high_score < g.score then g.score
                         else g.high_score }

/-- `SnakeGame._eat_food`: add the food value to the score, grow the
snake once (twice for a cookie), recompute the speed. -/
def SnakeGame.eat_food (g : SnakeGame) : SnakeGame :=
  let g' := { g with score := g.score + g.food.value }
  let g'' :=
    if g'.food.food_type = .cookie then
      { g' with snake := g'.snake.grow.grow }
    else
      { g' with snake := g'.snake.grow }
  { g'' with current_fps := update_speed g''.score }

/-- The food phase at the top of `SnakeGame._update_game`: age the food,
and regenerate it when it is flagged expired. -/
def SnakeGame.food_phase (g : SnakeGame) (cookie_draw : Bool)
    (draws : Nat → Pos) : SnakeGame :=
  let g' := { g with food := g.food.update }
  if g'.food.is_expired then g'.generate_food cookie_draw draws else g'

/-- `SnakeGame._update_game`, one simulation step in the Playing phase:
food phase, snake move (game over on failure), then the eaten check and
possible re-spawn.  The two spawn sites get independent draw outcomes;
`none` models a Python indexing error (empty snake body). -/
def SnakeGame.update_game (g : SnakeGame)
    (cd1 : Bool) (d1 : Nat → Pos) (cd2 : Bool) (d2 : Nat → Pos) :
    Option SnakeGame :=
  let g1 := g.food_phase cd1 d1
  match g1.snake.move with
  | none => none
  | some (ok, s') =>
    let g2 := { g1 with snake := s' }
    if ¬ ok then
      some g2.game_over
    else
      match g2.snake.body with
      | [] => none
      | head :: _ =>
        if g2.food.is_eaten head then
          some (g2.eat_food.generate_food cd2 d2)
        else
          some g2

/-! ## Concrete states used by counterexamples and witnesses -/

/-- A snake whose pending direction differs from its applied direction and
whose next head cell `(35, 11)` lies outside the playable area. -/
def c2_snake : Snake :=
  { body := [(34, 11)]
    direction := UP
    next_direction := RIGHT
    grow_pending := false }

/-- An excluded set consisting of the fallback cell `(5, 5)` only. -/
def c4_exclude : List Pos := [(5, 5)]

/-- A session with a live normal food at `(7, 7)`. -/
def c8_game : SnakeGame :=
  { state := .playing
    score := 40
    high_score := 0
    current_fps := 5
    snake := Snake.init
    food := { position := some (7, 7)
              food_type := .normal
              value := NORMAL_FOOD_VALUE
              lifetime := 0
              is_expired := false } }

/-- A game-over session whose cookie food has just expired. -/
def c9_over : SnakeGame :=
  { state := .game_over
    score := 0
    high_score := 0
    current_fps := 4
    snake := Snake.init
    food := { position := none
              food_type := .cookie
              value := COOKIE_FOOD_VALUE
              lifetime := 0
              is_expired := true } }

/-- A fresh menu session with the same high score as `c9_over`. -/
def c9_menu : SnakeGame :=
  { state := .menu
    score := 0
    high_score := 0
    current_fps := 4
    snake := Snake.init
    food := Food.init }

/-- A draw stream that always proposes the free cell `(6, 5)`. -/
def c9_draws : Nat → Pos := fun _ => (6, 5)

/-- An expired cookie food, as left behind by `Food.update` when the
lifetime ran out. -/
def c10_food : Food :=
  { position := none
    food_type := .cookie
    value := COOKIE_FOOD_VALUE
    lifetime := 0
    is_expired := true }

/-! ## Helper lemmas -/

/-- Any position accepted by the placement loop is valid and outside the
excluded set. -/
theorem find_position_some {exclude : List Pos} {draws : Nat → Pos}
    {a n : Nat} {p : Pos} (h : find_position exclude draws a n = some p) :
    is_valid_position p = true ∧ p ∉ exclude := by
  induction n generalizing a with
  | zero => simp [find_position] at h
  | succ n ih =>
    rw [find_position] at h
    split at h
    · next hc =>
      obtain rfl : draws a = p := by injection h
      exact hc
    · exact ih h

/-! ## Claim theorems -/

/-- C3: the tick rate is the pure function
`min(INITIAL_FPS + (score / interval) * increment, MAX_FPS)` of the
cumulative score; it is monotonic non-decreasing, never exceeds the
maximum, and with the repository's constants gives 4 at score 29, 5 at
score 30 and 15 at score 450. -/
theorem tick_rate_pure_monotone_clamped :
    (∀ score : Nat,
      update_speed score =
        min (INITIAL_FPS +
          score / SPEED_INCREASE_INTERVAL * SPEED_INCREASE_AMOUNT) MAX_FPS) ∧
    (∀ a b : Nat, a ≤ b → update_speed a ≤ update_speed b) ∧
    (∀ score : Nat, update_speed score ≤ MAX_FPS) ∧
    update_speed 29 = 4 ∧ update_speed 30 = 5 ∧ update_speed 450 = 15 := by
  refine ⟨fun _ => rfl, ?_, fun score => min_le_right _ _,
    by decide, by decide, by decide⟩
  intro a b hab
  simp only [update_speed, INITIAL_FPS, MAX_FPS, SPEED_INCREASE_INTERVAL,
    SPEED_INCREASE_AMOUNT]
  omega

/-- Witness for C3: monotonicity applied at scores 10 and 40. -/
theorem tick_rate_pure_monotone_clamped_witness :
    (10 : Nat) ≤ 40 ∧ update_speed 10 ≤ update_speed 40 :=
  ⟨by decide, tick_rate_pure_monotone_clamped.2.1 10 40 (by decide)⟩

/-- C7: with body length > 1, requesting the exact opposite of the
applied direction leaves the snake (hence `next_direction`) unchanged
and raises no error; any non-opposite request, or a request with body
length 1, sets `next_direction` to the requested direction. -/
theorem direction_reversal_silently_dropped (s : Snake) (d : Pos) :
    (1 < s.body.length → d = (-s.direction.1, -s.direction.2) →
      s.update_direction d = s) ∧
    ((d ≠ (-s.direction.1, -s.direction.2) ∨ s.body.length = 1) →
      s.update_direction d = { s with next_direction := d }) := by
  constructor
  · intro hlen hd
    simp [Snake.update_direction, hlen, hd]
  · intro h
    rw [Snake.update_direction, if_neg]
    rcases h with h | h
    · exact fun hc => h hc.2
    · exact fun hc => by omega

/-- Witness for C7: the initial snake (length 3, moving right) drops a
LEFT request but records an UP request. -/
theorem direction_reversal_silently_dropped_witness :
    Snake.init.update_direction LEFT = Snake.init ∧
    Snake.init.update_direction UP = { Snake.init with next_direction := UP } :=
  ⟨(direction_reversal_silently_dropped Snake.init LEFT).1 (by decide)
      (by decide),
    (direction_reversal_silently_dropped Snake.init UP).2
      (Or.inl (by decide))⟩

set_option maxRecDepth 4000 in
/-- C4 counterexample: with the excluded set `[(5, 5)]` — which leaves
free playable cells, e.g. `(6, 5)` — a draw stream that always proposes
`(5, 5)` exhausts all 1000 attempts and the fallback `(5, 5)` returned
by `Food.generate` lies inside the excluded set. -/
theorem spawn_can_return_excluded_position :
    ((6, 5) : Pos) ∉ c4_exclude ∧ is_valid_position (6, 5) = true ∧
    (Food.init.generate c4_exclude 10 false (fun _ => (5, 5))).2 ∈
      c4_exclude := by
  decide

/-- C4 amended: the position returned by `Food.generate` always lies
inside the playable bounds, and it is outside the excluded set unless
the bounded 1000-attempt search was exhausted, in which case it is the
fixed fallback `(5, 5)` (which may be excluded). -/
theorem spawn_in_bounds_and_fallback (f : Food) (exclude : List Pos)
    (current_fps : Nat) (cookie_draw : Bool) (draws : Nat → Pos) :
    is_valid_position (f.generate exclude current_fps cookie_draw draws).2 =
      true ∧
    ((f.generate exclude current_fps cookie_draw draws).2 ∉ exclude ∨
      (f.generate exclude current_fps cookie_draw draws).2 = (5, 5)) := by
  unfold Food.generate
  cases hfp : find_position exclude draws 0 MAX_ATTEMPTS with
  | none => simpa [hfp] using by decide
  | some p =>
    simpa [hfp] using
      ⟨(find_position_some hfp).1, Or.inl (find_position_some hfp).2⟩

/-- C8 counterexample: returning to the menu from `c8_game` leaves the
food untouched — its position is still `(7, 7)`, not the cleared/reset
food state. -/
theorem quit_to_menu_keeps_food :
    (c8_game.return_to_menu).food.position = some (7, 7) ∧
    (c8_game.return_to_menu).food ≠ c8_game.food.reset := by
  decide

/-- C8 amended: the quit-to-menu transition resets the score to 0, the
tick rate to the initial value and the snake to its fresh layout, sets
the phase to Menu and keeps the high score — but leaves the food
unchanged (it is not reset). -/
theorem quit_to_menu_resets_all_but_food (g : SnakeGame) :
    (g.return_to_menu).state = GameState.menu ∧
    (g.return_to_menu).score = 0 ∧
    (g.return_to_menu).current_fps = INITIAL_FPS ∧
    (g.return_to_menu).snake = Snake.init ∧
    (g.return_to_menu).food = g.food ∧
    (g.return_to_menu).high_score = g.high_score :=
  ⟨rfl, rfl, rfl, rfl, rfl, rfl⟩

/-- C10: `Food.generate` only clears `is_expired` in the normal-food
branch; spawning a cookie from the expired state `c10_food` sets a
position but leaves `is_expired = true`, so the next simulation step
treats the fresh food as expired (the normal branch, by contrast, does
reset the flag). -/
theorem spawn_after_expiry_keeps_expired_flag :
    ((c10_food.generate [] 4 true (fun _ => (6, 5))).1).position =
      some (6, 5) ∧
    ((c10_food.generate [] 4 true (fun _ => (6, 5))).1).is_expired = true ∧
    ((c10_food.generate [] 4 false (fun _ => (6, 5))).1).is_expired =
      false := by
  decide

/-- C1: `Snake.move` returns false iff the new head — the old head plus
the pending direction, which is applied first — lies outside the
playable bounds or appears anywhere in the old body (tail included,
since the tail is not yet removed); on success the new body is the new
head prepended to the old body, with the last element removed iff no
growth was pending. -/
theorem advance_false_iff_collision (s : Snake) (hx hy : Int)
    (rest : List Pos) (hb : s.body = (hx, hy) :: rest) :
    ∃ (ok : Bool) (s' : Snake), s.move = some (ok, s') ∧
      (ok = false ↔
        (is_valid_position
            (hx + s.next_direction.1, hy + s.next_direction.2) = false ∨
          ((hx + s.next_direction.1, hy + s.next_direction.2) : Pos) ∈
            s.body)) ∧
      (ok = true →
        s'.body =
          if s.grow_pending then
            (hx + s.next_direction.1, hy + s.next_direction.2) :: s.body
          else
            ((hx + s.next_direction.1, hy + s.next_direction.2) ::
              s.body).dropLast) := by
  obtain ⟨b, dir, nd, gp⟩ := s
  have hb' : b = (hx, hy) :: rest := hb
  subst hb'
  simp only [Snake.move]
  by_cases hv : is_valid_position (hx + nd.1, hy + nd.2) = true
  · by_cases hm : ((hx + nd.1, hy + nd.2) : Pos) ∈ ((hx, hy) :: rest)
    · exact ⟨false,
        { body := (hx, hy) :: rest, direction := nd,
          next_direction := nd, grow_pending := gp },
        by simp [hv, hm], by simp [hm], by simp⟩
    · cases gp
      · exact ⟨true,
          { body := ((hx + nd.1, hy + nd.2) :: (hx, hy) :: rest).dropLast,
            direction := nd, next_direction := nd, grow_pending := false },
          by simp [hv, hm], by simp [hv, hm], by simp⟩
      · exact ⟨true,
          { body := (hx + nd.1, hy + nd.2) :: (hx, hy) :: rest,
            direction := nd, next_direction := nd, grow_pending := false },
          by simp [hv, hm], by simp [hv, hm], by simp⟩
  · exact ⟨false,
      { body := (hx, hy) :: rest, direction := nd,
        next_direction := nd, grow_pending := gp },
      by simp [hv], by simp [Bool.eq_false_iff, hv], by simp⟩

/-- Witness for C1: the initial snake advances successfully; its new
head `(21, 11)` is in bounds and not on the body. -/
theorem advance_false_iff_collision_witness :
    ∃ (ok : Bool) (s' : Snake), Snake.init.move = some (ok, s') ∧
      (ok = false ↔
        (is_valid_position (20 + Snake.init.next_direction.1,
            11 + Snake.init.next_direction.2) = false ∨
          ((20 + Snake.init.next_direction.1,
            11 + Snake.init.next_direction.2) : Pos) ∈ Snake.init.body)) ∧
      (ok = true →
        s'.body =
          if Snake.init.grow_pending then
            (20 + Snake.init.next_direction.1,
              11 + Snake.init.next_direction.2) :: Snake.init.body
          else
            ((20 + Snake.init.next_direction.1,
              11 + Snake.init.next_direction.2) ::
              Snake.init.body).dropLast) :=
  advance_false_iff_collision Snake.init 20 11 [(19, 11), (18, 11)]
    (by decide)

/-- C2 counterexample: on `c2_snake` (pending direction RIGHT differs
from the applied direction UP; the next head cell is out of bounds)
`Snake.move` fails but has already overwritten `direction`, so the state
is not unchanged. -/
theorem failed_advance_mutates_direction :
    c2_snake.move = some (false, { c2_snake with direction := RIGHT }) ∧
    ({ c2_snake with direction := RIGHT } : Snake) ≠ c2_snake := by
  decide

/-- C2 amended: a failed `Snake.move` leaves `body`, `next_direction`
and `grow_pending` unchanged, but `direction` has been set to the old
`next_direction` (the only mutation before the collision checks). -/
theorem failed_advance_preserves_rest (s s' : Snake)
    (h : s.move = some (false, s')) :
    s'.body = s.body ∧ s'.next_direction = s.next_direction ∧
      s'.grow_pending = s.grow_pending ∧
      s'.direction = s.next_direction := by
  obtain ⟨b, dir, nd, gp⟩ := s
  cases b with
  | nil => simp [Snake.move] at h
  | cons hd tl =>
    obtain ⟨hx, hy⟩ := hd
    simp only [Snake.move] at h
    split at h
    · injection h with h'
      injection h' with h1 h2
      subst h2
      exact ⟨rfl, rfl, rfl, rfl⟩
    · split at h
      · injection h with h'
        injection h' with h1 h2
        subst h2
        exact ⟨rfl, rfl, rfl, rfl⟩
      · split at h
        · injection h with h'
          injection h' with h1 h2
          exact absurd h1 (by decide)
        · injection h with h'
          injection h' with h1 h2
          exact absurd h1 (by decide)

/-- Witness for C2 amended: applied to the failing move of `c2_snake`. -/
theorem failed_advance_preserves_rest_witness :
    ({ c2_snake with direction := RIGHT } : Snake).body = c2_snake.body ∧
    ({ c2_snake with direction := RIGHT } : Snake).next_direction =
      c2_snake.next_direction ∧
    ({ c2_snake with direction := RIGHT } : Snake).grow_pending =
      c2_snake.grow_pending ∧
    ({ c2_snake with direction := RIGHT } : Snake).direction =
      c2_snake.next_direction :=
  failed_advance_preserves_rest c2_snake
    { c2_snake with direction := RIGHT } (by decide)

/-- C5: `grow` is idempotent per tick — growing once or twice (or more)
before the next successful advance yields the very same state; that
state has exactly one more body cell than before, the same `direction`
and `next_direction` as the non-growing advance, and its body is the
non-growing body with the tail cell retained. -/
theorem grow_idempotent_per_tick (s t : Snake)
    (h : Snake.move { s with grow_pending := false } = some (true, t)) :
    s.grow.grow = s.grow ∧
    ∃ t' : Snake, s.grow.move = some (true, t') ∧
      s.grow.grow.move = some (true, t') ∧
      t'.body.length = s.body.length + 1 ∧
      t'.direction = t.direction ∧
      t'.next_direction = t.next_direction ∧
      t.body = t'.body.dropLast ∧
      t'.grow_pending = false := by
  refine ⟨rfl, ?_⟩
  obtain ⟨b, dir, nd, gp⟩ := s
  cases b with
  | nil => simp [Snake.move] at h
  | cons hd tl =>
    obtain ⟨hx, hy⟩ := hd
    simp only [Snake.move, Snake.grow] at h ⊢
    split at h
    · simp at h
    · split at h
      · simp at h
      · next hv hm =>
        rw [if_pos (by simp)] at h
        injection h with h'
        injection h' with h1 h2
        subst h2
        refine ⟨{ body := (hx + nd.1, hy + nd.2) :: (hx, hy) :: tl,
                  direction := nd, next_direction := nd,
                  grow_pending := false },
          ?_, ?_, by simp, rfl, rfl, by simp, rfl⟩
        · rw [if_neg hv, if_neg hm, if_neg (by simp)]
        · rw [if_neg hv, if_neg hm, if_neg (by simp)]

/-- Witness for C5: the initial snake grown once and advanced has four
cells; its non-growing advance drops the tail `(18, 11)`. -/
theorem grow_idempotent_per_tick_witness :
    Snake.init.grow.grow = Snake.init.grow ∧
    ∃ t' : Snake, Snake.init.grow.move = some (true, t') ∧
      Snake.init.grow.grow.move = some (true, t') ∧
      t'.body.length = Snake.init.body.length + 1 ∧
      t'.direction =
        (Snake.init : Snake).direction ∧
      t'.next_direction =
        (Snake.init : Snake).next_direction ∧
      ({ body := [(21, 11), (20, 11), (19, 11)], direction := RIGHT,
         next_direction := RIGHT, grow_pending := false } : Snake).body =
        t'.body.dropLast ∧
      t'.grow_pending = false := by
  have h := grow_idempotent_per_tick Snake.init
    { body := [(21, 11), (20, 11), (19, 11)], direction := RIGHT,
      next_direction := RIGHT, grow_pending := false } (by decide)
  exact h

/-- Aging a cookie strictly below its lifetime only counts the lifetime
down, leaving every other field alone. -/
theorem cookie_countdown (f : Food) (hty : f.food_type = .cookie)
    (k : Nat) (hk : k < f.lifetime) :
    Food.update^[k] f = { f with lifetime := f.lifetime - k } := by
  induction k with
  | zero =>
    obtain ⟨pos, ty, v, lt, ex⟩ := f
    simp
  | succ k ih =>
    rw [Function.iterate_succ_apply', ih (by omega)]
    obtain ⟨pos, ty, v, lt, ex⟩ := f
    have hty' : ty = .cookie := hty
    subst hty'
    have hk' : k + 1 < lt := hk
    rw [Food.update, if_pos ⟨rfl, by simp; omega⟩, if_neg (by simp; omega)]
    simp
    omega

/-- Aging a cookie for exactly its (positive) lifetime expires it and
clears its position. -/
theorem cookie_expires (f : Food) (hty : f.food_type = .cookie)
    (hpos : 0 < f.lifetime) :
    Food.update^[f.lifetime] f =
      { f with lifetime := 0, is_expired := true, position := none } := by
  obtain ⟨pos, ty, v, lt, ex⟩ := f
  have hty' : ty = .cookie := hty
  subst hty'
  have hpos' : 0 < lt := hpos
  obtain ⟨m, rfl⟩ : ∃ m, lt = m + 1 := ⟨lt - 1, by omega⟩
  show Food.update^[m + 1] _ = _
  rw [Function.iterate_succ_apply',
    cookie_countdown (Food.mk pos .cookie v (m + 1) ex) rfl m (by simp)]
  simp [Food.update]

/-- C6: a Bonus (cookie) food spawned at tick rate `r` has lifetime
`4 * r` ticks; `Food.update` (the `age()` of the spec) is a no-op on
normal food and decrements a live cookie's lifetime; after exactly
`4 * r` updates with no collection the position is cleared and the food
is flagged expired — not before — and the next simulation step's food
phase regenerates the food. -/
theorem bonus_food_lifetime_spec (r : Nat) (hr : 1 ≤ r) (f0 : Food)
    (hexp : f0.is_expired = false) (exclude : List Pos) (draws : Nat → Pos)
    (f : Food) (hf : f = (f0.generate exclude r true draws).1) :
    f.food_type = FoodType.cookie ∧
    f.lifetime = 4 * r ∧
    (∀ g : Food, g.food_type = FoodType.normal → g.update = g) ∧
    (∀ g : Food, g.food_type = FoodType.cookie → 0 < g.lifetime →
      (g.update).lifetime = g.lifetime - 1) ∧
    (∀ k, k < 4 * r → (Food.update^[k] f).position = f.position ∧
      (Food.update^[k] f).is_expired = false) ∧
    (Food.update^[4 * r] f).position = none ∧
    (Food.update^[4 * r] f).is_expired = true ∧
    (∀ (g : SnakeGame) (cd : Bool) (d : Nat → Pos),
      (g.food.update).is_expired = true →
      g.food_phase cd d =
        { g with food :=
            ((g.food.update).generate g.snake.body g.current_fps cd d).1 }) := by
  have hform : f.food_type = FoodType.cookie ∧ f.lifetime = 4 * r ∧
      f.is_expired = false := by
    rw [hf]
    unfold Food.generate
    cases hfp : find_position exclude draws 0 MAX_ATTEMPTS <;>
      simp [hfp, COOKIE_LIFETIME, hexp, Nat.mul_comm]
  obtain ⟨hty, hlt, hex⟩ := hform
  refine ⟨hty, hlt, ?_, ?_, ?_, ?_, ?_, ?_⟩
  · intro g hg
    unfold Food.update
    rw [if_neg]
    simp [hg]
  · intro g hg h0
    obtain ⟨pos, ty, v, lt, ex⟩ := g
    have hg' : ty = .cookie := hg
    subst hg'
    have h0' : 0 < lt := h0
    rw [Food.update, if_pos ⟨rfl, h0'⟩]
    split <;> rfl
  · intro k hk
    rw [cookie_countdown f hty k (by omega)]
    exact ⟨rfl, hex⟩
  · rw [← hlt, cookie_expires f hty (by omega)]
  · rw [← hlt, cookie_expires f hty (by omega)]
  · intro g cd d hg
    unfold SnakeGame.food_phase SnakeGame.generate_food
    simp [hg]

/-- Witness for C6: a cookie spawned at tick rate 10 has lifetime 40 and
is expired after exactly 40 updates. -/
theorem bonus_food_lifetime_spec_witness :
    (1 : Nat) ≤ 10 ∧
    ((Food.init.generate [] 10 true (fun _ => (6, 5))).1).lifetime =
      4 * 10 ∧
    (Food.update^[4 * 10]
      (Food.init.generate [] 10 true (fun _ => (6, 5))).1).is_expired =
      true := by
  have h := bonus_food_lifetime_spec 10 (by decide) Food.init rfl []
    (fun _ => (6, 5))
    ((Food.init.generate [] 10 true (fun _ => (6, 5))).1) rfl
  exact ⟨by decide, h.2.1, h.2.2.2.2.2.2.1⟩

/-- The food produced by `Food.generate` depends on the previous food
state only through `is_expired`, and on that only when the draw selects
a cookie. -/
theorem generate_result_from_flag (f1 f2 : Food) (exclude : List Pos)
    (fps : Nat) (cd : Bool) (draws : Nat → Pos)
    (h : cd = false ∨ f1.is_expired = f2.is_expired) :
    (f1.generate exclude fps cd draws).1 =
      (f2.generate exclude fps cd draws).1 := by
  obtain ⟨p1, t1, v1, l1, e1⟩ := f1
  obtain ⟨p2, t2, v2, l2, e2⟩ := f2
  unfold Food.generate
  rcases h with rfl | h
  · cases hfp : find_position exclude draws 0 MAX_ATTEMPTS <;> simp [hfp]
  · have h' : e1 = e2 := h
    subst h'
    cases cd <;>
      cases hfp : find_position exclude draws 0 MAX_ATTEMPTS <;> simp [hfp]

/-- C9 counterexample: from the game-over session `c9_over`, whose
cookie food has just expired, a restart with a cookie draw yields
`is_expired = true`, while the identically-drawn fresh start from
`c9_menu` (same high score) yields `is_expired = false` — the two
resulting states differ in a field other than `high_score`. -/
theorem restart_differs_from_start :
    c9_over.high_score = c9_menu.high_score ∧
    (c9_over.restart_game true c9_draws).food.is_expired = true ∧
    (c9_menu.start_game true c9_draws).food.is_expired = false ∧
    c9_over.restart_game true c9_draws ≠ c9_menu.start_game true c9_draws := by
  decide

/-- C9 amended: restarting from GameOver yields the same state as a
fresh Menu start (given the same draws and equal prior high scores) —
phase Playing, score 0, initial tick rate, fresh snake, same spawned
food — provided the spawn draw selects Normal food (or the two prior
foods agree on the stale `is_expired` flag, which a Bonus spawn leaks
through). -/
theorem restart_identical_to_start (g1 g2 : SnakeGame) (cookie_draw : Bool)
    (draws : Nat → Pos)
    (h1 : g1.state = GameState.game_over) (h2 : g2.state = GameState.menu)
    (hhs : g1.high_score = g2.high_score)
    (hflag : cookie_draw = false ∨
      g1.food.is_expired = g2.food.is_expired) :
    g1.restart_game cookie_draw draws = g2.start_game cookie_draw draws := by
  obtain ⟨st1, sc1, hs1, fps1, sn1, fd1⟩ := g1
  obtain ⟨st2, sc2, hs2, fps2, sn2, fd2⟩ := g2
  have hhs' : hs1 = hs2 := hhs
  subst hhs'
  simp only [SnakeGame.restart_game, SnakeGame.start_game,
    SnakeGame.generate_food, Snake.reset]
  rw [generate_result_from_flag fd1 fd2 Snake.init.body INITIAL_FPS
    cookie_draw draws hflag]

/-- Witness for C9: with a normal-food draw, restarting `c9_over` and
starting `c9_menu` produce identical states. -/
theorem restart_identical_to_start_witness :
    c9_over.restart_game false c9_draws = c9_menu.start_game false c9_draws :=
  restart_identical_to_start c9_over c9_menu false c9_draws rfl rfl rfl
    (Or.inl rfl)

end SnakeGameModel
